import Mathlib

/-!
A shallow embedding of the server_session crate (an actix-web server-side
session middleware) and proofs about its behaviour.

Modelling conventions, used throughout:

* `std::time::Duration` and `std::time::SystemTime` are modelled as `Nat`,
  counted in whole seconds (every duration the crate builds goes through
  `Duration::from_secs`).  `SystemTime::now()` becomes an explicit `now`
  parameter.
* `HashMap<String, V>` is modelled as an association list with
  duplicate-free insert (`mapInsert`) and key removal (`mapRemove`);
  iteration order is irrelevant to every property proved here.
* Rust methods that can panic (`Option::unwrap` / `Result::unwrap`) are
  modelled as `Option`-returning functions where `none` is the panic.
* `serde_json` is an external crate; a stored serialized `State` blob is
  modelled by the inductive `Blob`: `Blob.ofState s` is the output of
  `serde_json::to_string(&s)` (which always deserializes back to `s`),
  and `Blob.junk n` stands for any string that fails to deserialize into
  a `State`.  Per-key values inside a `State` stay as the already
  serialized strings the Rust code stores.
* The actix cookie jar (signing / encryption) is external as well; where
  a property needs it, the verification and encoding steps are either
  abstract function parameters or, where a concrete instance is needed,
  modelled from the spec (see `signedEncode`).
-/

namespace ServerSession

/-- Durations and timestamps in whole seconds. -/
abbrev Duration := Nat

/-- Timestamps in whole seconds. -/
abbrev SystemTime := Nat

/-- Models `Duration::from_secs`. -/
def durationFromSecs (n : Nat) : Duration := n

/-- Models `HashMap::insert`: replace the binding of `k` if present,
otherwise append it. -/
def mapInsert {α : Type} (m : List (String × α)) (k : String) (v : α) :
    List (String × α) :=
  match m with
  | [] => [(k, v)]
  | (k0, v0) :: rest =>
    if k0 = k then (k, v) :: rest else (k0, v0) :: mapInsert rest k v

/-- Models `HashMap::remove` (the removal itself; presence of the key is
checked separately where the Rust code unwraps the returned value). -/
def mapRemove {α : Type} (m : List (String × α)) (k : String) :
    List (String × α) :=
  match m with
  | [] => []
  | (k0, v0) :: rest =>
    if k0 = k then rest else (k0, v0) :: mapRemove rest k

/-- Models `State` from src/server_session_state.rs: the per-session bag of
already-serialized key/value pairs, its inactivity timeout and the last
use timestamp. -/
structure State where
  value : List (String × String)
  timeout : Duration
  last_use_time : SystemTime
deriving DecidableEq, Repr

/-- Models `State::new(timeout)`; `SystemTime::now()` is the explicit `now`. -/
def State.new (timeout : Duration) (now : SystemTime) : State :=
  { value := [], timeout := timeout, last_use_time := now }

/-- Models `State::default()`: `State::new(Duration::from_secs(30 * 60))`. -/
def State.defaultState (now : SystemTime) : State :=
  State.new (durationFromSecs (30 * 60)) now

/-- Models `State::get`: looks the key up and deserializes the stored string via
the external `serde_json::from_str`, modelled by the parameter `fromStr`;
a failed deserialization propagates as an error (the source's `?`). -/
def State.get {α : Type} (fromStr : String → Option α) (s : State)
    (key : String) : Except Unit (Option α) :=
  match s.value.lookup key with
  | some str =>
    match fromStr str with
    | some v => Except.ok (some v)
    | none => Except.error ()
  | none => Except.ok none

/-- Models `State::set`: inserts the serialized value (the caller passes the
already serialized string, standing for `serde_json::to_string(value)`). -/
def State.set (s : State) (key value : String) : State :=
  { s with value := mapInsert s.value key value }

/-- Models `State::remove`. -/
def State.remove (s : State) (key : String) : State :=
  { s with value := mapRemove s.value key }

/-- Models `State::clear`. -/
def State.clear (s : State) : State :=
  { s with value := [] }

/-- Models `State::extend`: `self.value.extend(data.value)`. -/
def State.extend (s : State) (data : State) : State :=
  { s with value := data.value.foldl (fun m p => mapInsert m p.1 p.2) s.value }

/-- Models `State::update_timeout`. -/
def State.update_timeout (s : State) (timeout : Duration) : State :=
  { s with timeout := timeout }

/-- Models `State::update_last_use_time`. -/
def State.update_last_use_time (s : State) (now : SystemTime) : State :=
  { s with last_use_time := now }

/-- Models `State::is_expired`: `SystemTime::now() > self.last_use_time + self.timeout`. -/
def State.is_expired (s : State) (now : SystemTime) : Bool :=
  decide (now > s.last_use_time + s.timeout)

/-- Models `SessionStatus` from src/session.rs. -/
inductive SessionStatus
  | Changed
  | Purged
  | Renewed
  | Unchanged
deriving DecidableEq, Repr

/-- Models `SessionStatus::default()`. -/
def SessionStatus.default : SessionStatus := SessionStatus.Unchanged

/-- Models `SessionInner` from src/session.rs: the per-request handle contents
(the `Rc<RefCell<_>>` sharing is modelled by explicit state passing). -/
structure SessionInner where
  state : State
  status : SessionStatus
deriving DecidableEq, Repr

/-- Models `SessionInner::new(timeout)`. -/
def SessionInner.new (timeout : Duration) (now : SystemTime) : SessionInner :=
  { state := State.new timeout now, status := SessionStatus.default }

namespace Session

/-- Models `Session::set`: mutate only while not purged, advancing the status to
`Changed`. -/
def set (key value : String) (inner : SessionInner) : SessionInner :=
  if inner.status ≠ SessionStatus.Purged then
    { inner with status := SessionStatus.Changed,
                 state := inner.state.set key value }
  else inner

/-- Models `Session::update_timeout(minutes)`: sets the state timeout to
`Duration::from_secs(minutes * 60)` while not purged. -/
def update_timeout (minutes : Nat) (inner : SessionInner) : SessionInner :=
  if inner.status ≠ SessionStatus.Purged then
    { inner with status := SessionStatus.Changed,
                 state := inner.state.update_timeout
                   (durationFromSecs (minutes * 60)) }
  else inner

/-- Models `Session::remove`. -/
def remove (key : String) (inner : SessionInner) : SessionInner :=
  if inner.status ≠ SessionStatus.Purged then
    { inner with status := SessionStatus.Changed,
                 state := inner.state.remove key }
  else inner

/-- Models `Session::clear`. -/
def clear (inner : SessionInner) : SessionInner :=
  if inner.status ≠ SessionStatus.Purged then
    { inner with status := SessionStatus.Changed,
                 state := inner.state.clear }
  else inner

/-- Models `Session::purge`: unconditionally set `Purged` and clear all values. -/
def purge (inner : SessionInner) : SessionInner :=
  { inner with status := SessionStatus.Purged, state := inner.state.clear }

/-- Models `Session::renew`: set `Renewed` unless purged. -/
def renew (inner : SessionInner) : SessionInner :=
  if inner.status ≠ SessionStatus.Purged then
    { inner with status := SessionStatus.Renewed }
  else inner

/-- Models `Session::get_session(extensions)`: return the cached handle if the
request extensions hold one, otherwise create a fresh
`SessionInner::new(Duration::from_secs(10))` and cache it.  Returns the
handle together with the updated extensions slot. -/
def get_session (ext : Option SessionInner) (now : SystemTime) :
    SessionInner × Option SessionInner :=
  match ext with
  | some inner => (inner, some inner)
  | none =>
    let inner := SessionInner.new (durationFromSecs 10) now
    (inner, some inner)

/-- Models `Session::set_session(data, req)`: fetch (or create) the handle from
the extensions, overwrite its timeout with the incoming state's timeout
and extend its values.  The extensions end up holding the returned
handle. -/
def set_session (data : State) (ext : Option SessionInner)
    (now : SystemTime) : SessionInner :=
  let inner := (get_session ext now).1
  { inner with state := (inner.state.update_timeout data.timeout).extend data }

/-- Models `Session::get_changes(res)`: when the request extensions hold a
handle, detach its state (replacing it with `State::new(timeout)` for the
same timeout) and return the status with the detached state; otherwise
`(Unchanged, None)`.  Returns the pair together with the updated
extensions slot. -/
def get_changes (ext : Option SessionInner) (now : SystemTime) :
    (SessionStatus × Option State) × Option SessionInner :=
  match ext with
  | some inner =>
    let timeout := inner.state.timeout
    ((inner.status, some inner.state),
     some { inner with state := State.new timeout now })
  | none => ((SessionStatus.Unchanged, none), none)

end Session

/-- A serialized `State` blob held in the store's map.  The Rust code
stores `String`s produced (or not) by the external `serde_json`;
`ofState s` stands for `serde_json::to_string(&s).unwrap()` and
`junk n` for any string that fails to deserialize into a `State`. -/
inductive Blob
  | ofState (s : State)
  | junk (tag : Nat)
deriving DecidableEq, Repr

/-- Models `serde_json::from_str::<State>` on a stored blob: `none` is a
deserialization failure. -/
def fromStrState : Blob → Option State
  | Blob.ofState s => some s
  | Blob.junk _ => none

/-- Models `serde_json::to_string` on a `State` (total for this type). -/
def toStrState (s : State) : Blob := Blob.ofState s

/-- Models `ServerSessionState` from src/server_session_state.rs: the process
wide store (the `Arc<RwLock<_>>` is modelled by explicit state passing). -/
structure ServerSessionState where
  state : List (String × Blob)
  timeout : Duration
  started : Bool
deriving DecidableEq, Repr

/-- Models `ServerSessionState::new()`. -/
def ServerSessionState.new : ServerSessionState :=
  { state := [], started := false, timeout := durationFromSecs (30 * 60) }

/-- Models `ServerSessionState::start`: idempotent start flag (the spawned
reaper loop itself is modelled one sweep at a time by `reaperRetain`). -/
def ServerSessionState.start (st : ServerSessionState) : ServerSessionState :=
  if st.started then st else { st with started := true }

/-- One sweep of the reaper's `retain` closure over the store map, from
`ServerSessionState::start`:
`inner.write().unwrap().retain(|_, value| { let state: State =
serde_json::from_str(value).unwrap(); !state.is_expired() })`.
The `unwrap` on the deserialization result panics when the stored blob
fails to deserialize; the panic is modelled as `none`. -/
def reaperRetain (now : SystemTime) :
    List (String × Blob) → Option (List (String × Blob))
  | [] => some []
  | (key, v) :: rest =>
    match fromStrState v with
    | none => none
    | some st =>
      match reaperRetain now rest with
      | none => none
      | some r => some (if st.is_expired now then r else (key, v) :: r)

/-- Models `ServerSessionState::get_state`: absent key or a blob that fails to
deserialize both yield `None`. -/
def ServerSessionState.get_state (store : ServerSessionState)
    (key : String) : Option State :=
  match store.state.lookup key with
  | some s =>
    match fromStrState s with
    | some state => some state
    | none => none
  | none => none

/-- Models `ServerSessionState::new_state`: a fresh state with the store's
current default timeout. -/
def ServerSessionState.new_state (store : ServerSessionState)
    (now : SystemTime) : State :=
  State.new store.timeout now

/-- Models `ServerSessionState::set_state`: serialize and upsert. -/
def ServerSessionState.set_state (store : ServerSessionState)
    (key : String) (st : State) : ServerSessionState :=
  { store with state := mapInsert store.state key (toStrState st) }

/-- Models `ServerSessionState::remove_state`:
`self.state.clone().write().unwrap().remove(key).unwrap()` — the second
`unwrap` is on the `Option<String>` returned by `HashMap::remove`, so an
absent key panics; the panic is modelled as `none`. -/
def ServerSessionState.remove_state (store : ServerSessionState)
    (key : String) : Option ServerSessionState :=
  match store.state.lookup key with
  | some _ => some { store with state := mapRemove store.state key }
  | none => none

/-- Models `ServerSessionState::set_timeout(minutes)`. -/
def ServerSessionState.set_timeout (store : ServerSessionState)
    (minutes : Nat) : ServerSessionState :=
  { store with timeout := durationFromSecs (minutes * 60) }

/-- Models `CookieSecurity` from src/server_session_inner.rs. -/
inductive CookieSecurity
  | Signed
  | Private
deriving DecidableEq, Repr

/-- Models `SameSite` attribute values (from the external actix cookie crate). -/
inductive SameSite
  | Strict
  | Lax
  | NoneValue
deriving DecidableEq, Repr

/-- Models `CookieSessionError` from src/server_session_inner.rs (the
`Serialize` variant never arises in this model, where serialization of a
`State` is total). -/
inductive CookieSessionError
  | Overflow
deriving DecidableEq, Repr

/-- Models `ServerSessionInner` from src/server_session_inner.rs: the cookie
codec configuration.  `max_age` and `expires_in` are `time::Duration`s,
modelled in whole seconds as `Int` (that type is signed); the signing
`Key` is modelled as its byte list. -/
structure ServerSessionInner where
  name : String
  path : String
  security : CookieSecurity
  key : List Nat
  secure : Bool
  http_only : Bool
  lazy : Bool
  domain : Option String
  max_age : Option Int
  expires_in : Option Int
  same_site : Option SameSite
  status : SessionStatus
deriving DecidableEq, Repr

/-- Models `ServerSessionInner::new()`. -/
def ServerSessionInner.new : ServerSessionInner :=
  { name := "actix-session"
    path := "/"
    security := CookieSecurity.Signed
    key := List.replicate 32 0
    lazy := false
    secure := false
    http_only := true
    domain := none
    max_age := none
    expires_in := none
    same_site := none
    status := SessionStatus.Unchanged }

/-- The id alphabet of `ServerSessionInner::generate_id`:
`b"ABCDEFGHIJKLMNOPQRSTUVWXYZ0123456789"`. -/
def CHARSET : List Char := "ABCDEFGHIJKLMNOPQRSTUVWXYZ0123456789".toList

/-- Models `ServerSessionInner::generate_id`: 32 draws of
`CHARSET[rng.gen_range(0..CHARSET.len())]`.  The thread RNG is modelled
as a function from draw index to a `Nat`, reduced modulo the alphabet
size to land in the range `gen_range` guarantees. -/
def generate_id (rng : Nat → Nat) : String :=
  String.mk ((List.range 32).map
    (fun i => CHARSET.getD (rng i % CHARSET.length) 'A'))

/-- The cookie-scanning loop of `ServerSessionInner::get_session_id`: for
each inbound cookie whose name matches the configured name, run it
through the jar (`verify` models `jar.signed(&key).get(&name)` resp.
`jar.private(&key).get(&name)`, returning the verified value); the first
success returns that value, any failure moves on to the next cookie. -/
def findSessionCookie (name : String) (verify : String → Option String) :
    List (String × String) → Option String
  | [] => none
  | (n, v) :: rest =>
    if n = name then
      match verify v with
      | some c => some c
      | none => findSessionCookie name verify rest
    else findSessionCookie name verify rest

/-- Models `ServerSessionInner::get_session_id`: `cookies` is
`req.cookies()` (`none` models the `Err` case) as (name, raw value)
pairs; on any failure a fresh id is generated with `is_new = true`. -/
def get_session_id (cfg : ServerSessionInner)
    (verify : String → Option String)
    (cookies : Option (List (String × String))) (rng : Nat → Nat) :
    Bool × String :=
  match cookies with
  | some cs =>
    match findSessionCookie cfg.name verify cs with
    | some key => (false, key)
    | none => (true, generate_id rng)
  | none => (true, generate_id rng)

/-- Models `ServerSessionInner::set_cookie`: no-op when lazy and the value is
empty; `Overflow` when the raw value length exceeds 4064 (checked before
any signing or encoding); otherwise the cookie is built, run through the
jar (`encode` models the signing/encryption plus header serialization of
the single delta cookie) and every delta header value is appended.  The
returned list is the `Set-Cookie` header values appended to the
response. -/
def set_cookie (cfg : ServerSessionInner) (encode : String → String)
    (value : String) : Except CookieSessionError (List String) :=
  if cfg.lazy && value.isEmpty then Except.ok []
  else if value.length > 4064 then Except.error CookieSessionError.Overflow
  else Except.ok [encode value]

/-- Modelled from the spec: the actix cookie jar's signed codec is
external to src/; per the spec a signed cookie is the "value with an
authentication tag", so its encoding is modelled as prepending a
non-empty tag — all that matters here is that the encoded output is
strictly longer than the raw value. -/
def signedEncode (value : String) : String :=
  "hmac-authentication-tag:" ++ value

/-- The store side effect the middleware performs at response time. -/
inductive StoreAction
  | setStateAct (id : String) (st : State)
  | removeStateAct (id : String)
  | noAction
deriving DecidableEq, Repr

/-- The observable response-phase effects of
`ServerSessionMiddleware::call`. -/
structure ResponseEffects where
  sessionCookieSet : Bool
  removalCookieSet : Bool
  storeAction : StoreAction
deriving DecidableEq, Repr

/-- The response phase of `ServerSessionMiddleware::call` (src/
server_session.rs lines 192-219): emit the session cookie iff `is_new`,
then dispatch on `Session::get_changes`; the wildcard arm covers
`(Changed, None)` and `(Renewed, None)`. -/
def middlewareResponse (is_new : Bool) (id : String)
    (changes : SessionStatus × Option State) : ResponseEffects :=
  let sessionCookie := is_new
  match changes with
  | (SessionStatus.Changed, some st) =>
    ⟨sessionCookie, false, StoreAction.setStateAct id st⟩
  | (SessionStatus.Renewed, some st) =>
    ⟨sessionCookie, false, StoreAction.setStateAct id st⟩
  | (SessionStatus.Unchanged, some st) =>
    ⟨sessionCookie, false, StoreAction.setStateAct id st⟩
  | (SessionStatus.Unchanged, none) =>
    ⟨sessionCookie, false, StoreAction.noAction⟩
  | (SessionStatus.Purged, _) =>
    ⟨sessionCookie, true, StoreAction.removeStateAct id⟩
  | _ => ⟨sessionCookie, false, StoreAction.noAction⟩

/-- A 4064-byte cookie value, used to exercise the overflow boundary of
`set_cookie`. -/
def bigValue : String := String.mk (List.replicate 4064 'a')

/-! ## Helper lemmas -/

/-- Every character of the id alphabet is alphanumeric. -/
theorem CHARSET_all_alphanum : CHARSET.all Char.isAlphanum = true := by decide

/-- Any index into the id alphabet (with the `'A'` fallback) yields an
alphanumeric character. -/
theorem CHARSET_getD_isAlphanum (n : Nat) :
    (CHARSET.getD n 'A').isAlphanum = true := by
  by_cases h : n < CHARSET.length
  · have hmem : CHARSET.getD n 'A' ∈ CHARSET := by
      rw [List.getD_eq_getElem?_getD, List.getElem?_eq_getElem h,
        Option.getD_some]
      exact List.getElem_mem h
    exact List.all_eq_true.mp CHARSET_all_alphanum _ hmem
  · rw [List.getD_eq_default _ _ (Nat.le_of_not_lt h)]
    decide

/-- A generated id always has exactly 32 characters. -/
theorem generate_id_length (rng : Nat → Nat) : (generate_id rng).length = 32 := rfl

/-- Every character of a generated id is alphanumeric. -/
theorem generate_id_alphanum (rng : Nat → Nat) :
    (generate_id rng).toList.all Char.isAlphanum = true := by
  rw [List.all_eq_true]
  intro c hc
  have hc2 : c ∈ (List.range 32).map
      (fun i => CHARSET.getD (rng i % CHARSET.length) 'A') := hc
  obtain ⟨i, _, rfl⟩ := List.mem_map.mp hc2
  exact CHARSET_getD_isAlphanum _

/-- When the cookie scan succeeds, some inbound cookie carries the
configured name and verifies to the returned value. -/
theorem findSessionCookie_spec (name : String)
    (verify : String → Option String) (cs : List (String × String))
    (v : String) (h : findSessionCookie name verify cs = some v) :
    ∃ raw, (name, raw) ∈ cs ∧ verify raw = some v := by
  induction cs with
  | nil => exact absurd h (by simp [findSessionCookie])
  | cons p rest ih =>
    obtain ⟨n, val⟩ := p
    by_cases hn : n = name
    · subst hn
      cases hv : verify val with
      | some c =>
        have heq : findSessionCookie n verify ((n, val) :: rest) = some c := by
          simp [findSessionCookie, hv]
        rw [heq] at h
        obtain rfl : c = v := Option.some.inj h
        exact ⟨val, List.mem_cons_self _ _, hv⟩
      | none =>
        have heq : findSessionCookie n verify ((n, val) :: rest) =
            findSessionCookie n verify rest := by
          simp [findSessionCookie, hv]
        rw [heq] at h
        obtain ⟨raw, hmem, hver⟩ := ih h
        exact ⟨raw, List.mem_cons_of_mem _ hmem, hver⟩
    · have heq : findSessionCookie name verify ((n, val) :: rest) =
          findSessionCookie name verify rest := by
        simp [findSessionCookie, hn]
      rw [heq] at h
      obtain ⟨raw, hmem, hver⟩ := ih h
      exact ⟨raw, List.mem_cons_of_mem _ hmem, hver⟩

/-! ## Claim theorems -/

/-- C1: the spec requires that a store entry whose blob cannot be
deserialized is treated as expired, dropped, and the sweep continues —
never a crash.  The reaper's retain closure instead unwraps the failed
deserialization, so one undecodable entry makes the whole sweep panic
(modelled as `none`): the code contradicts the claim. -/
theorem C1_reaper_panics_on_undecodable_entry :
    reaperRetain 0 [("sid", Blob.junk 0)] = none := rfl

/-- C2: the spec requires `RemoveState(id)` to be a best-effort delete
for which an absent key is not an error.  The implementation unwraps the
`Option` returned by `HashMap::remove`, so removing an absent key panics
(modelled as `none`): the code contradicts the claim. -/
theorem C2_remove_state_panics_when_key_absent :
    ServerSessionState.remove_state ServerSessionState.new "missing" = none := rfl

/-- C3: `purge()` forces status `Purged` from every prior status and
empties the value map; afterwards `set`, `remove`, `clear`,
`update_timeout` and `renew` are all identities on the handle (so the
status stays `Purged`, the map stays empty, and `get` of any key yields
`Ok(None)`). -/
theorem C3_purged_is_absorbing (inner : SessionInner) (key value : String)
    (minutes : Nat) (parse : String → Option String) :
    (Session.purge inner).status = SessionStatus.Purged ∧
    (Session.purge inner).state.value = [] ∧
    Session.set key value (Session.purge inner) = Session.purge inner ∧
    Session.remove key (Session.purge inner) = Session.purge inner ∧
    Session.clear (Session.purge inner) = Session.purge inner ∧
    Session.update_timeout minutes (Session.purge inner) = Session.purge inner ∧
    Session.renew (Session.purge inner) = Session.purge inner ∧
    State.get parse (Session.purge inner).state key = Except.ok none := by
  refine ⟨rfl, rfl, ?_, ?_, ?_, ?_, ?_, ?_⟩ <;>
    simp [Session.purge, Session.set, Session.remove, Session.clear,
      Session.update_timeout, Session.renew, State.clear, State.get]

/-- C7: on a request that carries a handle, `get_changes` returns the
current status together with the accumulated state and leaves the handle
with an empty state of the same timeout; without a handle it returns
`(Unchanged, None)`. -/
theorem C7_take_changes_detaches_state (inner : SessionInner)
    (now : SystemTime) :
    Session.get_changes (some inner) now =
      ((inner.status, some inner.state),
       some { inner with state := State.new inner.state.timeout now }) ∧
    (State.new inner.state.timeout now).value = [] ∧
    (State.new inner.state.timeout now).timeout = inner.state.timeout ∧
    Session.get_changes none now = ((SessionStatus.Unchanged, none), none) :=
  ⟨rfl, rfl, rfl, rfl⟩

/-- C9: on a handle whose status is `Renewed`, each of `set`, `remove`,
`clear` and `update_timeout` overwrites the status with `Changed`. -/
theorem C9_renewed_overwritten_by_mutation (inner : SessionInner)
    (key value : String) (minutes : Nat)
    (h : inner.status = SessionStatus.Renewed) :
    (Session.set key value inner).status = SessionStatus.Changed ∧
    (Session.remove key inner).status = SessionStatus.Changed ∧
    (Session.clear inner).status = SessionStatus.Changed ∧
    (Session.update_timeout minutes inner).status = SessionStatus.Changed := by
  refine ⟨?_, ?_, ?_, ?_⟩ <;>
    simp [Session.set, Session.remove, Session.clear,
      Session.update_timeout, h]

/-- Witness for C9 at a concrete renewed handle. -/
theorem C9_witness :
    (Session.set "k" "v" (Session.renew (SessionInner.new 10 0))).status =
      SessionStatus.Changed ∧
    (Session.remove "k" (Session.renew (SessionInner.new 10 0))).status =
      SessionStatus.Changed ∧
    (Session.clear (Session.renew (SessionInner.new 10 0))).status =
      SessionStatus.Changed ∧
    (Session.update_timeout 1 (Session.renew (SessionInner.new 10 0))).status =
      SessionStatus.Changed :=
  C9_renewed_overwritten_by_mutation (Session.renew (SessionInner.new 10 0))
    "k" "v" 1 (by decide)

/-- C10: a handle first created by `get_session` on empty extensions
carries the hard-coded 10-second timeout, not the store's 30-minute
default; existing handles are returned unchanged, and `set_session`
overwrites the handle's timeout with the incoming state's timeout. -/
theorem C10_fresh_handle_hard_coded_timeout (now : SystemTime)
    (data : State) (inner0 : SessionInner) :
    (Session.get_session none now).1 =
      SessionInner.new (durationFromSecs 10) now ∧
    (Session.get_session none now).1.state.timeout = 10 ∧
    ServerSessionState.new.timeout = 1800 ∧
    (Session.get_session none now).1.state.timeout ≠
      ServerSessionState.new.timeout ∧
    (Session.get_session (some inner0) now).1 = inner0 ∧
    (Session.set_session data none now).state.timeout = data.timeout := by
  refine ⟨rfl, rfl, rfl, ?_, rfl, rfl⟩
  intro hcon
  have h10 : (10 : Nat) = 1800 := hcon
  omega

/-- C4: `get_session_id` returns `is_new = false` only when it returns
the verified value of an inbound cookie carrying the configured name; in
every other case (no cookies, wrong name, failed verification) it
returns `is_new = true` with a freshly generated 32-character
alphanumeric id. -/
theorem C4_get_session_id_cases (cfg : ServerSessionInner)
    (verify : String → Option String)
    (cookies : Option (List (String × String))) (rng : Nat → Nat) :
    ((get_session_id cfg verify cookies rng).1 = false ∧
      ∃ cs raw, cookies = some cs ∧ (cfg.name, raw) ∈ cs ∧
        verify raw = some (get_session_id cfg verify cookies rng).2) ∨
    (get_session_id cfg verify cookies rng = (true, generate_id rng) ∧
      (generate_id rng).length = 32 ∧
      (generate_id rng).toList.all Char.isAlphanum = true) := by
  cases cookies with
  | none =>
    exact Or.inr ⟨rfl, generate_id_length rng, generate_id_alphanum rng⟩
  | some cs =>
    cases hf : findSessionCookie cfg.name verify cs with
    | some v =>
      left
      obtain ⟨raw, hmem, hver⟩ := findSessionCookie_spec _ _ _ _ hf
      constructor
      · simp [get_session_id, hf]
      · exact ⟨cs, raw, rfl, hmem, by simp [get_session_id, hf, hver]⟩
    | none =>
      right
      exact ⟨by simp [get_session_id, hf], generate_id_length rng,
        generate_id_alphanum rng⟩

/-- C5: the response phase of the middleware acts exactly as the status
returned by `get_changes` prescribes — `SetState` on `(Changed, Some)`,
`(Renewed, Some)` and `(Unchanged, Some)`, nothing on
`(Unchanged, None)`, removal cookie plus `RemoveState` on `Purged`; the
session cookie is emitted if and only if the request was classified as
new, regardless of the session data. -/
theorem C5_response_dispatch (is_new : Bool) (id : String) (st : State)
    (changes : SessionStatus × Option State) :
    middlewareResponse is_new id (SessionStatus.Changed, some st) =
      ⟨is_new, false, StoreAction.setStateAct id st⟩ ∧
    middlewareResponse is_new id (SessionStatus.Renewed, some st) =
      ⟨is_new, false, StoreAction.setStateAct id st⟩ ∧
    middlewareResponse is_new id (SessionStatus.Unchanged, some st) =
      ⟨is_new, false, StoreAction.setStateAct id st⟩ ∧
    middlewareResponse is_new id (SessionStatus.Unchanged, none) =
      ⟨is_new, false, StoreAction.noAction⟩ ∧
    (∀ ost, middlewareResponse is_new id (SessionStatus.Purged, ost) =
      ⟨is_new, true, StoreAction.removeStateAct id⟩) ∧
    (middlewareResponse is_new id changes).sessionCookieSet = is_new := by
  refine ⟨rfl, rfl, rfl, rfl, fun ost => ?_, ?_⟩
  · cases ost <;> rfl
  · obtain ⟨status, ost⟩ := changes
    cases status <;> cases ost <;> rfl

/-- C6 counterexample: a 4064-byte raw value passes the length check, so
`set_cookie` succeeds and appends a header even though its encoded
output (raw value plus authentication tag) exceeds 4064 bytes — refuting
the claim that the overflow failure occurs if and only if the encoded
cookie value exceeds 4064 bytes. -/
theorem C6_counterexample_encoded_overflow_not_detected :
    4064 < (signedEncode bigValue).length ∧
    set_cookie ServerSessionInner.new signedEncode bigValue =
      Except.ok [signedEncode bigValue] := by
  have hb : bigValue.length = 4064 := by
    show (List.replicate 4064 'a').length = 4064
    rw [List.length_replicate]
  constructor
  · have htag : ("hmac-authentication-tag:" : String).length = 24 := rfl
    have henc : (signedEncode bigValue).length = 24 + 4064 := by
      rw [signedEncode, String.length_append, hb, htag]
    omega
  · simp [set_cookie, ServerSessionInner.new, hb]

/-- C6 amended: `set_cookie` fails with `Overflow` (appending no header)
if and only if the lazy/empty no-op does not apply and the raw value
passed in — measured before any signing or encoding — exceeds 4064
bytes; when the no-op does not apply and the raw value fits, exactly the
encoded cookie is appended as a header. -/
theorem C6_amended_raw_length_check (cfg : ServerSessionInner)
    (encode : String → String) (value : String) :
    (set_cookie cfg encode value =
        Except.error CookieSessionError.Overflow ↔
      (cfg.lazy && value.isEmpty) = false ∧ 4064 < value.length) ∧
    ((cfg.lazy && value.isEmpty) = false → value.length ≤ 4064 →
      set_cookie cfg encode value = Except.ok [encode value]) := by
  cases hl : cfg.lazy && value.isEmpty with
  | true => simp [set_cookie, hl]
  | false =>
    by_cases hv : 4064 < value.length
    · constructor
      · simp [set_cookie, hl, hv]
      · intro _ hle
        omega
    · have hle : ¬ value.length > 4064 := hv
      constructor
      · simp [set_cookie, hl, hle, hv]
      · intro _ _
        simp [set_cookie, hl, hle]

/-- Witness for C6 amended at a small concrete value. -/
theorem C6_witness :
    set_cookie ServerSessionInner.new signedEncode "sid" =
      Except.ok [signedEncode "sid"] :=
  (C6_amended_raw_length_check ServerSessionInner.new signedEncode
    "sid").2 (by decide) (by decide)

/-- C8 counterexample: `update_timeout(0)` on a freshly created handle
sets the state timeout to zero, refuting the invariant that every
operation that sets a timeout preserves `timeout > 0`. -/
theorem C8_counterexample_zero_timeout :
    (Session.update_timeout 0 (Session.get_session none 0).1).state.timeout
      = 0 := rfl

/-- C8 amended: `is_expired()` holds exactly when
`now > last_use_time + timeout`; the states built from the crate's own
constants (the store default, `State::default`, a store `new_state`, the
fresh handle) have positive timeouts, and `update_timeout` /
`set_timeout` produce a positive timeout whenever called with a positive
number of minutes — but positivity is not enforced, zero minutes yields
a zero timeout. -/
theorem C8_amended_timeout_and_expiry (s : State) (now : SystemTime)
    (inner : SessionInner) (minutes : Nat) (store : ServerSessionState) :
    (s.is_expired now = true ↔ now > s.last_use_time + s.timeout) ∧
    (inner.status ≠ SessionStatus.Purged → 0 < minutes →
      0 < (Session.update_timeout minutes inner).state.timeout) ∧
    (0 < minutes →
      0 < (ServerSessionState.set_timeout store minutes).timeout) ∧
    0 < ServerSessionState.new.timeout ∧
    0 < (ServerSessionState.new.new_state now).timeout ∧
    0 < (State.defaultState now).timeout ∧
    0 < (Session.get_session none now).1.state.timeout := by
  refine ⟨?_, ?_, ?_, by decide, ?_, ?_, ?_⟩
  · simp [State.is_expired]
  · intro hp hm
    rw [Session.update_timeout, if_pos hp]
    show 0 < minutes * 60
    omega
  · intro hm
    show 0 < minutes * 60
    omega
  · show (0 : Nat) < 1800
    decide
  · show (0 : Nat) < 1800
    decide
  · show (0 : Nat) < 10
    decide

/-- Witness for C8 amended: one positive minute on a fresh handle keeps
the timeout positive. -/
theorem C8_witness :
    0 < (Session.update_timeout 1 (SessionInner.new 10 0)).state.timeout :=
  (C8_amended_timeout_and_expiry (State.new 10 0) 0 (SessionInner.new 10 0)
    1 ServerSessionState.new).2.1 (by decide) (by decide)

end ServerSession
